import Mathlib

/-!
Verification of the webhook-triggered automation handler (repository
provisioning orchestrator).

The JavaScript source is shallowly embedded: pure helpers become Lean
functions on `String` / `List Char`; the effectful orchestration becomes a
function producing the ordered trace of outbound API calls, with a `World`
record supplying the outcomes of the remote reads the code branches on
(repository-existence fetch, per-path blob-sha fetch, pages-create outcome,
head commit sha, per-iteration poll and notification outcomes).  Operations
whose failure would abort the whole workflow (the PUT writes, the `/user`
lookup, the branch-ref read) are modelled as succeeding, since every claim
under study is about the non-aborting executions.  Timed waits are modelled
by their iteration structure: each poll iteration of `waitForUrl` accounts
for its 2000 ms sleep, so elapsed time at iteration `i` is `2000 * i`.
-/

namespace Tds

/-! ## String utilities -/

/-- JS `String.prototype.toLowerCase`, restricted to the ASCII lowering
performed by `Char.toLower` (all strings in the claims are ASCII). -/
def lowerStr (s : String) : String := String.mk (s.data.map Char.toLower)

/-- Substring containment on character lists (JS `String.prototype.includes`). -/
def containsSub (hay needle : List Char) : Bool :=
  (List.range (hay.length + 1)).any fun i => needle.isPrefixOf (hay.drop i)

/-- JS `hay.includes(needle)`. -/
def containsStr (hay needle : String) : Bool := containsSub hay.data needle.data

/-- JS `String.prototype.split` on a single separator character. -/
def splitOnChar (sep : Char) : List Char → List (List Char)
  | [] => [[]]
  | c :: cs =>
    match splitOnChar sep cs with
    | [] => [[]]
    | g :: gs => if c == sep then [] :: g :: gs else (c :: g) :: gs

/-- JS `task.split("-").pop()`: the final dash-separated component. -/
def seedOfTask (task : String) : String :=
  String.mk ((splitOnChar '-' task.data).getLastD [])

/-! ## Base64 (Node `Buffer.prototype.toString("base64")`) -/

def b64Alphabet : List Char :=
  "ABCDEFGHIJKLMNOPQRSTUVWXYZabcdefghijklmnopqrstuvwxyz0123456789+/".data

def b64Char (n : Nat) : Char := b64Alphabet.getD n 'A'

/-- RFC 4648 base64 with padding, on byte lists. -/
def base64Encode : List Nat → List Char
  | [] => []
  | [b1] => [b64Char (b1 / 4), b64Char (b1 % 4 * 16), '=', '=']
  | [b1, b2] => [b64Char (b1 / 4), b64Char (b1 % 4 * 16 + b2 / 16), b64Char (b2 % 16 * 4), '=']
  | b1 :: b2 :: b3 :: rest =>
    b64Char (b1 / 4) :: b64Char (b1 % 4 * 16 + b2 / 16) ::
      b64Char (b2 % 16 * 4 + b3 / 64) :: b64Char (b3 % 64) :: base64Encode rest

/-- UTF-8 encoding of one code point (Node `Buffer.from(string)`). -/
def utf8Bytes (c : Char) : List Nat :=
  let n := c.toNat
  if n < 128 then [n]
  else if n < 2048 then [192 + n / 64, 128 + n % 64]
  else if n < 65536 then [224 + n / 4096, 128 + n / 64 % 64, 128 + n % 64]
  else [240 + n / 262144, 128 + n / 4096 % 64, 128 + n / 64 % 64, 128 + n % 64]

def utf8Encode (s : String) : List Nat := (s.data.map utf8Bytes).flatten

/-- `Buffer.from(content).toString("base64")`. -/
def base64OfString (s : String) : String := String.mk (base64Encode (utf8Encode s))

/-! ## Repository-name slug -/

/-- Characters kept by the regex character class `[a-z0-9-]`. -/
def isSlugChar (c : Char) : Bool :=
  (decide (97 ≤ c.toNat) && decide (c.toNat ≤ 122)) ||
    (decide (48 ≤ c.toNat) && decide (c.toNat ≤ 57)) || c == '-'

/-- Worker for `collapseNonSlug`; the flag records whether the previous
character belonged to a replaced run (so the run emits only one hyphen). -/
def collapseNonSlugGo : Bool → List Char → List Char
  | _, [] => []
  | inRun, c :: cs =>
    if isSlugChar c then c :: collapseNonSlugGo false cs
    else if inRun then collapseNonSlugGo true cs
    else '-' :: collapseNonSlugGo true cs

/-- `replace(/[^a-z0-9-]+/g, "-")`: every maximal run of characters outside
`[a-z0-9-]` is replaced by a single hyphen. -/
def collapseNonSlug (l : List Char) : List Char := collapseNonSlugGo false l

/-- `repoNameFromTask`: lower-case the task, then collapse runs of
characters outside `[a-z0-9-]`. -/
def repoNameFromTask (task : String) : String :=
  String.mk (collapseNonSlug (lowerStr task).data)

/-- Alphanumeric (lower-case letter or digit); hyphen is NOT alphanumeric. -/
def isAlnumChar (c : Char) : Bool :=
  (decide (97 ≤ c.toNat) && decide (c.toNat ≤ 122)) ||
    (decide (48 ≤ c.toNat) && decide (c.toNat ≤ 57))

/-- Worker for `collapseNonAlnum` (flag as in `collapseNonSlugGo`). -/
def collapseNonAlnumGo : Bool → List Char → List Char
  | _, [] => []
  | inRun, c :: cs =>
    if isAlnumChar c then c :: collapseNonAlnumGo false cs
    else if inRun then collapseNonAlnumGo true cs
    else '-' :: collapseNonAlnumGo true cs

/-- Collapse every maximal run of non-alphanumeric characters (hyphen
included) to a single hyphen; helper for `slugSpecStyle`. -/
def collapseNonAlnum (l : List Char) : List Char := collapseNonAlnumGo false l

/-- Modelled from the spec's words (for comparison with the code): lower-case
the task and collapse every run of non-alphanumeric characters — hyphen
included — to a single hyphen. -/
def slugSpecStyle (task : String) : String :=
  String.mk (collapseNonAlnum (lowerStr task).data)

/-! ## Data model -/

/-- Environment-sourced configuration (`process.env`), read once.
`studentSecret = none` models an unset `STUDENT_SECRET` variable.
`currentYear` models `new Date().getUTCFullYear()`. -/
structure Env where
  studentSecret : Option String
  ghOwner : String
  currentYear : Nat

/-- Outcomes of the remote reads the orchestration branches on.  `fileSha
path = some s` means the contents-fetch for `path` succeeds returning blob
sha `s`; `none` means it fails (file absent).  `urlOk i` / `postOk i` are the
outcomes of the `i`-th hosting poll / notification attempt. -/
structure World where
  repoExists : Bool
  login : String
  fileSha : String → Option String
  pagesCreateOk : Bool
  headSha : String
  urlOk : Nat → Bool
  postOk : Nat → Bool

/-- One attachment entry; the empty string models a missing/falsy field
(the code skips an attachment when `!name || !url`). -/
structure Attachment where
  name : String
  url : String
deriving DecidableEq

/-- The parsed JSON request body.  `secret = ""` models a missing or falsy
secret field.  `attachments = none` models a body whose `attachments` is not
an array. -/
structure TaskRequest where
  secret : String
  email : String
  task : String
  round : Nat
  nonce : String
  brief : String
  evaluation_url : String
  attachments : Option (List Attachment)
deriving DecidableEq

/-- A generated bundle: README text plus ordered path-to-content mapping
(`Object.entries` order = insertion order). -/
structure Bundle where
  readme : String
  files : List (String × String)
deriving DecidableEq

/-- The JSON payload POSTed to the evaluation URL. -/
structure NotifyPayload where
  email : String
  task : String
  round : Nat
  nonce : String
  repo_url : String
  commit_sha : String
  pages_url : String
deriving DecidableEq

/-- One outbound HTTP call, in the order the orchestration issues them. -/
inductive ApiCall where
  | getRepo (owner name : String)
  | getUser
  | createUserRepo (name : String)
  | createOrgRepo (owner name : String)
  | getContents (owner repo path : String)
  | putContents (owner repo path message content : String) (sha : Option String)
  | getRef (owner repo branch : String)
  | createPages (owner repo branch : String)
  | updatePages (owner repo branch : String)
  | fetchUrl (url : String)
  | postJson (url : String) (payload : NotifyPayload)
deriving DecidableEq

/-! ## Template bundles (string content transcribed from the source) -/

def captchaReadme : String :=
  "# Captcha Solver\n\nDisplays image from ?url=... and uses Tesseract.js to extract text."

def captchaIndexHtml : String :=
  "<!doctype html><html><head><meta charset=\"utf-8\"><title>Captcha Solver</title><script src=\"https://cdn.jsdelivr.net/npm/tesseract.js@5/dist/tesseract.min.js\"></script></head><body><img id=\"captcha\"><pre id=\"result\"></pre><script src=\"script.js\"></script></body></html>"

def captchaScriptJs : String :=
  "async function run()\x7bconst u=new URL(location).searchParams.get(\x27url\x27)||\x27attachments/sample.png\x27;document.getElementById(\x27captcha\x27).src=u;const \x7b createWorker \x7d=Tesseract;const worker=await createWorker();const \x7b data:\x7btext\x7d \x7d=await worker.recognize(u);document.getElementById(\x27result\x27).textContent=text.trim();await worker.terminate();\x7drun();"

def markdownReadme1 : String :=
  "# Markdown to HTML\n\nConverts attached input.md into rendered HTML using marked and highlight.js."

def markdownIndexHtml1 : String :=
  "<!doctype html><html><head><meta charset=\"utf-8\"><title>Markdown</title><script src=\"https://cdn.jsdelivr.net/npm/marked/marked.min.js\"></script><script src=\"https://cdn.jsdelivr.net/npm/highlight.js@11.9.0/lib/common.min.js\"></script></head><body><div id=\"markdown-output\"></div><script src=\"script.js\"></script></body></html>"

def markdownScriptJs1 : String :=
  "async function load()\x7bconst t=await (await fetch(\x27attachments/input.md\x27)).text();document.getElementById(\x27markdown-output\x27).innerHTML=marked.parse(t);hljs.highlightAll();\x7dload();"

def markdownReadme2 : String :=
  "# Markdown to HTML Round 2\n\nAdds tabs, source label, and word count."

def markdownIndexHtml2 : String :=
  "<!doctype html><html><head><meta charset=\x27utf-8\x27><title>Markdown to HTML</title><link rel=\x27stylesheet\x27 href=\x27https://cdnjs.cloudflare.com/ajax/libs/highlight.js/11.9.0/styles/default.min.css\x27></head><body class=\x27p-4\x27><div id=\x27markdown-tabs\x27><button id=\x27tab-html\x27>HTML</button><button id=\x27tab-md\x27>Markdown</button></div><div id=\x27markdown-source-label\x27></div><div id=\x27markdown-output\x27></div><pre id=\x27markdown-source\x27></pre><span id=\x27markdown-word-count\x27></span><script src=\x27https://cdn.jsdelivr.net/npm/marked/marked.min.js\x27></script><script src=\x27https://cdnjs.cloudflare.com/ajax/libs/highlight.js/11.9.0/highlight.min.js\x27></script><script src=\x27script.js\x27></script></body></html>"

def markdownScriptJs2 : String :=
  "async function main()\x7bconst md=await (await fetch(\x27attachments/input.md\x27)).text();const html=marked.parse(md,\x7bhighlight:c=>hljs.highlightAuto(c).value\x7d);const out=document.querySelector(\x27#markdown-output\x27);const src=document.querySelector(\x27#markdown-source\x27);out.innerHTML=html;src.textContent=md;document.querySelector(\x27#markdown-source-label\x27).textContent=\x27Attachment: input.md\x27;document.querySelector(\x27#tab-html\x27).onclick=()=>\x7bout.style.display=\x27block\x27;src.style.display=\x27none\x27;\x7d;document.querySelector(\x27#tab-md\x27).onclick=()=>\x7bout.style.display=\x27none\x27;src.style.display=\x27block\x27;\x7d;const count=md.trim().split(/\\s+/).length;document.querySelector(\x27#markdown-word-count\x27).textContent=new Intl.NumberFormat().format(count)+\x27 words\x27;\x7dmain();"

def salesReadme1 : String :=
  "# Sum of Sales\n\nFetches data.csv, sums its sales column, and displays the total."

def salesIndexHtml1 (seed : String) : String :=
  "<!doctype html><html><head><meta charset=\"utf-8\"><title>Sales Summary " ++ seed ++ "</title><link rel=\"stylesheet\" href=\"https://cdn.jsdelivr.net/npm/bootstrap@5/dist/css/bootstrap.min.css\"></head><body><h1>Sales Summary " ++ seed ++ "</h1><div>Total: <span id=\"total-sales\">0</span></div><script src=\"script.js\"></script></body></html>"

def salesScriptJs1 : String :=
  "async function load()\x7bconst csv=await (await fetch(\x27attachments/data.csv\x27)).text();const rows=csv.trim().split(/\\n/).map(r=>r.split(\x27,\x27));const hdr=rows.shift();const i=hdr.indexOf(\x27sales\x27);const total=rows.reduce((s,r)=>s+parseFloat(r[i]||0),0);document.getElementById(\x27total-sales\x27).textContent=total.toFixed(2);\x7dload();"

def salesReadme2 : String :=
  "# Sum of Sales Round 2\n\nAdds table and currency picker."

def salesIndexHtml2 (seed : String) : String :=
  "<!doctype html><html><head><meta charset=\"utf-8\"><title>Sales Summary " ++ seed ++ "</title><link rel=\"stylesheet\" href=\"https://cdn.jsdelivr.net/npm/bootstrap@5/dist/css/bootstrap.min.css\"></head><body class=\x27p-4\x27><h1>Sales Summary " ++ seed ++ "</h1><select id=\x27currency-picker\x27><option value=\x27USD\x27>USD</option></select><div>Total: <span id=\x27total-sales\x27>0</span> <span id=\x27total-currency\x27></span></div><table id=\x27product-sales\x27 class=\x27table\x27><tbody></tbody></table><script src=\x27script.js\x27></script></body></html>"

def salesScriptJs2 : String :=
  "async function main()\x7bconst csv=await (await fetch(\x27attachments/data.csv\x27)).text();const rows=csv.trim().split(/\\n/).map(r=>r.split(\x27,\x27));const hdr=rows.shift();const iS=hdr.indexOf(\x27sales\x27);const iP=hdr.indexOf(\x27product\x27);const tbody=document.querySelector(\x27#product-sales tbody\x27);let total=0;for(const r of rows)\x7bconst tr=document.createElement(\x27tr\x27);tr.innerHTML=\x60<td>$\x7br[iP]\x7d</td><td>$\x7br[iS]\x7d</td>\x60;tbody.appendChild(tr);total+=parseFloat(r[iS]||0);\x7ddocument.querySelector(\x27#total-sales\x27).textContent=total.toFixed(2);\x7dmain();"

def githubUserReadme1 : String :=
  "# GitHub User Created\n\nFetches GitHub username and shows account creation date."

def githubUserIndexHtml1 (seed : String) : String :=
  "<!doctype html><html><head><meta charset=\x27utf-8\x27><title>GitHub User</title><link rel=\x27stylesheet\x27 href=\x27https://cdn.jsdelivr.net/npm/bootstrap@5/dist/css/bootstrap.min.css\x27></head><body class=\x27p-4\x27><form id=\x27github-user-" ++ seed ++ "\x27><input id=\x27username\x27 class=\x27form-control mb-2\x27 placeholder=\x27GitHub username\x27><button class=\x27btn btn-primary\x27>Check</button></form><div>Created At: <span id=\x27github-created-at\x27></span></div><script src=\x27script.js\x27></script></body></html>"

def githubUserScriptJs1 : String :=
  "document.querySelector(\x27form\x27).onsubmit=async e=>\x7be.preventDefault();const u=username.value.trim();const r=await fetch(\x27https://api.github.com/users/\x27+u);const d=await r.json();if(d.created_at)\x7bgithub_created_at.textContent=new Date(d.created_at).toISOString().slice(0,10);\x7delse\x7bgithub_created_at.textContent=\x27Not found\x27;\x7d\x7d;"

def githubUserReadme2 : String :=
  "# GitHub User Created Round 2\n\nAdds aria-live, age, and caching."

def githubUserIndexHtml2 (seed : String) : String :=
  "<!doctype html><html><head><meta charset=\x27utf-8\x27><title>GitHub User</title><link rel=\x27stylesheet\x27 href=\x27https://cdn.jsdelivr.net/npm/bootstrap@5/dist/css/bootstrap.min.css\x27></head><body class=\x27p-4\x27><form id=\x27github-user-" ++ seed ++ "\x27><input id=\x27username\x27 class=\x27form-control mb-2\x27><button class=\x27btn btn-primary\x27>Check</button></form><div id=\x27github-status\x27 aria-live=\x27polite\x27></div><div>Created At: <span id=\x27github-created-at\x27></span> <span id=\x27github-account-age\x27></span></div><script src=\x27script.js\x27></script></body></html>"

def githubUserScriptJs2 (seed : String) : String :=
  "const key=\x27github-user-" ++ seed ++ "\x27;const saved=localStorage.getItem(key);if(saved)username.value=saved;document.querySelector(\x27form\x27).onsubmit=async e=>\x7be.preventDefault();const user=username.value.trim();if(!user)return;github_status.textContent=\x27Looking up...\x27;const r=await fetch(\x27https://api.github.com/users/\x27+user);const d=await r.json();if(d.created_at)\x7bgithub_status.textContent=\x27Found user!\x27;const date=new Date(d.created_at);github_created_at.textContent=date.toISOString().slice(0,10);const age=Math.floor((Date.now()-date)/(365*24*60*60*1000));github_account_age.textContent=age+\x27 years\x27;localStorage.setItem(key,user);\x7delse\x7bgithub_status.textContent=\x27User not found\x27;\x7d\x7d;"

def basicReadme : String :=
  "# Generic Task App\n\nImplements the provided brief."

def basicIndexHtml (brief : String) : String :=
  "<!doctype html><html><body><h1>Task Brief</h1><pre>" ++ brief ++ "</pre></body></html>"

def mitLicenseBody (year : String) (owner : String) : String :=
  "MIT License\n\nCopyright (c) " ++ year ++ " " ++ owner ++ "\n\nPermission is hereby granted, free of charge, to any person obtaining a copy\nof this software and associated documentation files (the \"Software\"), to deal\nin the Software without restriction, including without limitation the rights\nto use, copy, modify, merge, publish, distribute, sublicense, and/or sell\ncopies of the Software, and to permit persons to whom the Software is\nfurnished to do so, subject to the following conditions:\n\nThe above copyright notice and this permission notice shall be included in all\ncopies or substantial portions of the Software.\n\nTHE SOFTWARE IS PROVIDED \"AS IS\", WITHOUT WARRANTY OF ANY KIND, EXPRESS OR\nIMPLIED, INCLUDING BUT NOT LIMITED TO THE WARRANTIES OF MERCHANTABILITY,\nFITNESS FOR A PARTICULAR PURPOSE AND NONINFRINGEMENT. IN NO EVENT SHALL THE\nAUTHORS OR COPYRIGHT HOLDERS BE LIABLE FOR ANY CLAIM, DAMAGES OR OTHER\nLIABILITY, WHETHER IN AN ACTION OF CONTRACT, TORT OR OTHERWISE, ARISING FROM,\nOUT OF OR IN CONNECTION WITH THE SOFTWARE OR THE USE OR OTHER DEALINGS IN THE\nSOFTWARE."

/-- `captchaSolverTemplate` (the source declares no parameters; the `round`
argument at the call site is ignored). -/
def captchaSolverTemplate : Bundle :=
  ⟨captchaReadme, [("index.html", captchaIndexHtml), ("script.js", captchaScriptJs)]⟩

def markdownTemplate (round : Nat) : Bundle :=
  if round = 1 then
    ⟨markdownReadme1, [("index.html", markdownIndexHtml1), ("script.js", markdownScriptJs1)]⟩
  else
    ⟨markdownReadme2, [("index.html", markdownIndexHtml2), ("script.js", markdownScriptJs2)]⟩

def salesTemplate (round : Nat) (task : String) : Bundle :=
  let seed := seedOfTask task
  if round = 1 then
    ⟨salesReadme1, [("index.html", salesIndexHtml1 seed), ("script.js", salesScriptJs1)]⟩
  else
    ⟨salesReadme2, [("index.html", salesIndexHtml2 seed), ("script.js", salesScriptJs2)]⟩

def githubUserTemplate (round : Nat) (task : String) : Bundle :=
  let seed := seedOfTask task
  if round = 1 then
    ⟨githubUserReadme1,
      [("index.html", githubUserIndexHtml1 seed), ("script.js", githubUserScriptJs1)]⟩
  else
    ⟨githubUserReadme2,
      [("index.html", githubUserIndexHtml2 seed), ("script.js", githubUserScriptJs2 seed)]⟩

def basicTemplate (brief : String) : Bundle :=
  ⟨basicReadme, [("index.html", basicIndexHtml brief)]⟩

/-- `generateFromBrief`: lower-case the brief, test the keywords in source
order with first-match-wins, fall through to the generic bundle. -/
def generateFromBrief (r : TaskRequest) : Bundle :=
  let brief := lowerStr r.brief
  if containsStr brief "captcha-solver" then captchaSolverTemplate
  else if containsStr brief "markdown" then markdownTemplate r.round
  else if containsStr brief "sales" then salesTemplate r.round r.task
  else if containsStr brief "github user" then githubUserTemplate r.round r.task
  else basicTemplate r.brief

/-- `mitLicenseText` (year and owner from the environment; `|| "Student"`). -/
def mitLicenseText (env : Env) : String :=
  mitLicenseBody (toString env.currentYear)
    (if env.ghOwner == "" then "Student" else env.ghOwner)

/-! ## GitHub operations (traces of outbound calls) -/

/-- `ensureRepo`: fetch; on failure consult `/user` and create under the
user (case-insensitive owner match) or the organization. -/
def ensureRepo (w : World) (owner name : String) : List ApiCall :=
  if w.repoExists then [.getRepo owner name]
  else
    .getRepo owner name :: .getUser ::
      (if lowerStr w.login == lowerStr owner then [.createUserRepo name]
       else [.createOrgRepo owner name])

/-- JS `if (sha) body.sha = sha`: a falsy (empty) sha is dropped. -/
def shaIfTruthy : Option String → Option String
  | some s => if s == "" then none else some s
  | none => none

/-- `writeFile`: fetch the existing blob sha (failure caught and treated as
absence), then PUT the content, carrying the fetched sha when present. -/
def writeFile (w : World) (owner repo path content message : String)
    (isBase64 : Bool) : List ApiCall :=
  [.getContents owner repo path,
   .putContents owner repo path message
     (if isBase64 then content else base64OfString content)
     (shaIfTruthy (w.fileSha path))]

/-- `getLatestCommitSha`: resolve the branch ref to its commit sha. -/
def getLatestCommitSha (w : World) (owner repo branch : String) :
    List ApiCall × String :=
  ([.getRef owner repo branch], w.headSha)

/-- The deterministic public hosting URL. -/
def pagesUrlOf (owner repo : String) : String :=
  "https://" ++ owner ++ ".github.io/" ++ repo ++ "/"

/-- `enablePages`: attempt to create the pages configuration; on failure
update it instead; return the hosting URL either way. -/
def enablePages (w : World) (owner repo branch : String) :
    List ApiCall × String :=
  (if w.pagesCreateOk then [.createPages owner repo branch]
   else [.createPages owner repo branch, .updatePages owner repo branch],
   pagesUrlOf owner repo)

/-- The polling loop of `waitForUrl`.  Iteration `i` runs while the elapsed
time `2000 * i` is below the 120000 ms timeout; each iteration issues one
GET (exceptions caught) and, on failure, sleeps 2000 ms. -/
def waitLoop (ok : Nat → Bool) (url : String) (i : Nat) : List ApiCall × Bool :=
  if h : 2000 * i < 120000 then
    if ok i then ([.fetchUrl url], true)
    else
      let r := waitLoop ok url (i + 1)
      (.fetchUrl url :: r.1, r.2)
  else ([], false)
termination_by 120000 - 2000 * i
decreasing_by omega

/-- `waitForUrl` with its default 120000 ms timeout: returns whether a poll
succeeded; a timeout returns `false` rather than raising. -/
def waitForUrl (ok : Nat → Bool) (url : String) : List ApiCall × Bool :=
  waitLoop ok url 0

/-- The retry loop of `postWithRetry`: for `i < 5`, POST; stop on a 2xx
response; otherwise (non-ok status or caught exception) sleep `delay` ms and
double it.  Returns (calls, delays slept, delivered?). -/
def postLoop (ok : Nat → Bool) (url : String) (p : NotifyPayload)
    (i delay : Nat) : List ApiCall × List Nat × Bool :=
  if h : i < 5 then
    if ok i then ([.postJson url p], [], true)
    else
      let r := postLoop ok url p (i + 1) (delay * 2)
      (.postJson url p :: r.1, delay :: r.2.1, r.2.2)
  else ([], [], false)
termination_by 5 - i
decreasing_by omega

/-- `postWithRetry`: up to 5 attempts, first backoff delay 1000 ms. -/
def postWithRetry (ok : Nat → Bool) (url : String) (p : NotifyPayload) :
    List ApiCall × List Nat × Bool :=
  postLoop ok url p 0 1000

/-! ## Attachment decoder -/

/-- The regex marker `;base64,` (spelled out character by character so that
it reduces structurally). -/
def b64Marker : List Char := [';', 'b', 'a', 's', 'e', '6', '4', ',']

/-- The marker without its leading semicolon. -/
def b64MarkerTail : List Char := ['b', 'a', 's', 'e', '6', '4', ',']

/-- Index of the last occurrence of `needle` in `hay` (the greedy leading
`.*` of the regex binds the capture group to the text after the LAST
occurrence of the marker). -/
def lastOcc (needle hay : List Char) : Option Nat :=
  ((List.range (hay.length + 1)).filter fun i => needle.isPrefixOf (hay.drop i)).getLast?

/-- `parseDataUri`: `/^data:.*;base64,(.*)$/s.exec(uri)`; the `base64` field
of the result is the captured payload, or the empty string when the regex
does not match. -/
def parseDataUri (u : List Char) : List Char :=
  if ("data:".data).isPrefixOf u then
    match lastOcc b64Marker u with
    | some i => u.drop (i + b64Marker.length)
    | none => []
  else []

/-- `parseDataUri` on `String`. -/
def parseDataUriStr (uri : String) : String := String.mk (parseDataUri uri.data)

/-! ## Orchestrator and HTTP entry point -/

/-- The attachment loop of `processRequest`: entries with a falsy name or
url are skipped; the rest are decoded and written under `attachments/`
as already-base64 content. -/
def attachmentCalls (w : World) (owner repo : String) :
    Option (List Attachment) → List ApiCall
  | none => []
  | some l =>
    (l.map fun a =>
      if a.name == "" || a.url == "" then []
      else
        writeFile w owner repo ("attachments/" ++ a.name) (parseDataUriStr a.url)
          ("add attachment " ++ a.name) true).flatten

/-- The JSON body POSTed to `evaluation_url`. -/
def notifyPayload (env : Env) (w : World) (r : TaskRequest) : NotifyPayload :=
  { email := r.email
    task := r.task
    round := r.round
    nonce := r.nonce
    repo_url := "https://github.com/" ++ env.ghOwner ++ "/" ++ repoNameFromTask r.task
    commit_sha := w.headSha
    pages_url := pagesUrlOf env.ghOwner (repoNameFromTask r.task) }

/-- `processRequest`: provision, generate, write LICENSE / README / bundle
files / attachments, enable pages, poll the hosting URL, resolve the head
commit, notify with retry.  The value is the ordered trace of outbound
calls. -/
def processRequest (env : Env) (w : World) (r : TaskRequest) : List ApiCall :=
  let owner := env.ghOwner
  let repo := repoNameFromTask r.task
  let g := generateFromBrief r
  ensureRepo w owner repo
    ++ writeFile w owner repo "LICENSE" (mitLicenseText env) "add LICENSE" false
    ++ writeFile w owner repo "README.md" g.readme "add README.md" false
    ++ (g.files.map fun pc =>
          writeFile w owner repo pc.1 pc.2 ("add " ++ pc.1) false).flatten
    ++ attachmentCalls w owner repo r.attachments
    ++ (enablePages w owner repo "main").1
    ++ (waitForUrl w.urlOk (pagesUrlOf owner repo)).1
    ++ (getLatestCommitSha w owner repo "main").1
    ++ (postWithRetry w.postOk r.evaluation_url (notifyPayload env w r)).1

/-- The secret gate: `!body.secret || body.secret !== process.env.STUDENT_SECRET`
fails; only a truthy, exactly-equal secret passes. -/
def secretOk (env : Env) (secret : String) : Bool :=
  !(secret == "") && (env.studentSecret == some secret)

/-- The HTTP handler: 405 on a non-POST method, 401 on a failed secret check
(no orchestration), otherwise 200 followed by the orchestration trace. -/
def handler (env : Env) (w : World) (method : String) (r : TaskRequest) :
    Nat × List ApiCall :=
  if method != "POST" then (405, [])
  else if !secretOk env r.secret then (401, [])
  else (200, processRequest env w r)

/-! ## The `src/api/endpoint.js` variant

`src/api/endpoint.js` is a second implementation of the same handler.  It
shares `enablePages`, `getLatestCommitSha`, `postWithRetry`, `parseDataUri`,
`repoNameFromTask` and the secret gate verbatim with `part_000`, and its
captcha-solver, markdown, sales-script and generic template strings coincide
character for character with the `part_000` round-1 ones (so those string
constants are reused below); it differs in `ensureRepo` (no organization
branch), `writeFile` (no prior contents fetch), the sales / github-user
pages (no task seed), the truncated license body, the round-insensitive
template selection, and in `processRequest`, which has NO hosting poll. -/

def epSalesIndexHtml : String :=
  "<!doctype html><html><head><meta charset=\"utf-8\"><title>Sales Summary</title><link rel=\"stylesheet\" href=\"https://cdn.jsdelivr.net/npm/bootstrap@5/dist/css/bootstrap.min.css\"></head><body><h1 id=\"title\">Sales Summary</h1><div>Total: <span id=\"total-sales\">0</span></div><script src=\"script.js\"></script></body></html>"

def epGithubUserIndexHtml : String :=
  "<!doctype html><html><head><meta charset=\"utf-8\"><title>GitHub User</title><link rel=\"stylesheet\" href=\"https://cdn.jsdelivr.net/npm/bootstrap@5/dist/css/bootstrap.min.css\"></head><body><form id=\"form\"><input name=\"user\" placeholder=\"octocat\"><button>Lookup</button></form><div id=\"github-created-at\"></div><script src=\"script.js\"></script></body></html>"

def epGithubUserScriptJs : String :=
  "document.getElementById(\x27form\x27).addEventListener(\x27submit\x27,async e=>\x7be.preventDefault();const u=new FormData(e.target).get(\x27user\x27);const r=await fetch(\x27https://api.github.com/users/\x27+u);const j=await r.json();document.getElementById(\x27github-created-at\x27).textContent=new Date(j.created_at).toISOString().slice(0,10);\x7d);"

def epMitLicenseBody (year : String) (owner : String) : String :=
  "MIT License\n\nCopyright (c) " ++ year ++ " " ++ owner ++ "\n\nPermission is hereby granted..."

namespace Endpoint

/-- `writeFile` as written in `src/api/endpoint.js`: a single PUT with no
prior contents fetch and never a `sha` field. -/
def writeFile (owner repo path content message : String)
    (isBase64 : Bool) : List ApiCall :=
  [.putContents owner repo path message
     (if isBase64 then content else base64OfString content) none]

/-- `ensureRepo` as in `endpoint.js`: fetch; on any failure create under
`/user/repos` (no `/user` lookup, no organization branch). -/
def ensureRepo (w : World) (owner name : String) : List ApiCall :=
  if w.repoExists then [.getRepo owner name]
  else [.getRepo owner name, .createUserRepo name]

/-- `endpoint.js` `markdownTemplate` (no round parameter; its strings equal
the `part_000` round-1 bundle). -/
def markdownTemplate : Bundle :=
  ⟨markdownReadme1,
   [("index.html", markdownIndexHtml1), ("script.js", markdownScriptJs1)]⟩

/-- `endpoint.js` `salesTemplate` (no round or task parameter, no seed). -/
def salesTemplate : Bundle :=
  ⟨salesReadme1, [("index.html", epSalesIndexHtml), ("script.js", salesScriptJs1)]⟩

/-- `endpoint.js` `githubUserTemplate` (no round or task parameter). -/
def githubUserTemplate : Bundle :=
  ⟨githubUserReadme1,
   [("index.html", epGithubUserIndexHtml), ("script.js", epGithubUserScriptJs)]⟩

/-- `endpoint.js` `generateFromBrief`: same keyword order and lowercasing;
the captcha-solver and generic bundles equal the `part_000` ones. -/
def generateFromBrief (r : TaskRequest) : Bundle :=
  let brief := lowerStr r.brief
  if containsStr brief "captcha-solver" then captchaSolverTemplate
  else if containsStr brief "markdown" then markdownTemplate
  else if containsStr brief "sales" then salesTemplate
  else if containsStr brief "github user" then githubUserTemplate
  else basicTemplate r.brief

/-- `endpoint.js` `mitLicenseText` (truncated license body). -/
def mitLicenseText (env : Env) : String :=
  epMitLicenseBody (toString env.currentYear)
    (if env.ghOwner == "" then "Student" else env.ghOwner)

/-- The attachment loop of the `endpoint.js` `processRequest` (same skip
logic as `part_000`, but issuing the fetch-free `writeFile`). -/
def attachmentCalls (owner repo : String) :
    Option (List Attachment) → List ApiCall
  | none => []
  | some l =>
    (l.map fun a =>
      if a.name == "" || a.url == "" then []
      else
        writeFile owner repo ("attachments/" ++ a.name) (parseDataUriStr a.url)
          ("add attachment " ++ a.name) true).flatten

/-- `processRequest` as written in `src/api/endpoint.js` (lines 31-76):
provision, generate, write LICENSE / README / bundle files / attachments,
enable pages, resolve the head commit and notify — with NO
hosting-availability poll between enabling pages and resolving the
commit. -/
def processRequest (env : Env) (w : World) (r : TaskRequest) : List ApiCall :=
  let owner := env.ghOwner
  let repo := repoNameFromTask r.task
  let g := generateFromBrief r
  ensureRepo w owner repo
    ++ writeFile owner repo "LICENSE" (mitLicenseText env) "add LICENSE" false
    ++ writeFile owner repo "README.md" g.readme "add README.md" false
    ++ (g.files.map fun pc =>
          writeFile owner repo pc.1 pc.2 ("add " ++ pc.1) false).flatten
    ++ attachmentCalls owner repo r.attachments
    ++ (enablePages w owner repo "main").1
    ++ (getLatestCommitSha w owner repo "main").1
    ++ (postWithRetry w.postOk r.evaluation_url (notifyPayload env w r)).1

end Endpoint

/-! ## Trace projections -/

/-- The file paths written, in order (one per `PUT .../contents/...`). -/
def writesOf (t : List ApiCall) : List String :=
  t.filterMap fun c =>
    match c with
    | .putContents _ _ path _ _ _ => some path
    | _ => none

/-- The notification payloads POSTed, in order. -/
def postsOf (t : List ApiCall) : List NotifyPayload :=
  t.filterMap fun c =>
    match c with
    | .postJson _ p => some p
    | _ => none

/-- The hosting-poll GETs issued, in order (one per `fetchUrl`). -/
def fetchesOf (t : List ApiCall) : List String :=
  t.filterMap fun c =>
    match c with
    | .fetchUrl u => some u
    | _ => none


/-! ## Concrete instances used by witnesses -/

/-- A concrete world in which `LICENSE` already exists with blob sha
`abc123` and every other path is absent. -/
def exampleWorld : World :=
  ⟨true, "owner1", fun p => if p == "LICENSE" then some "abc123" else none,
   true, "sha0", fun _ => true, fun _ => true⟩

/-- A concrete payload for witnesses. -/
def examplePayload : NotifyPayload := ⟨"e", "t", 1, "n", "r", "c", "p"⟩

/-- The environment for the C1 witness. -/
def scenarioEnv : Env := ⟨some "sec", "owner1", 2025⟩

/-- A world for the C1 witness: repository already present, LICENSE blob
present, pages create succeeds, first poll and first notification succeed. -/
def scenarioWorld : World :=
  ⟨true, "owner1", fun p => if p == "LICENSE" then some "abc123" else none,
   true, "headsha1", fun _ => true, fun _ => true⟩

/-- A concrete request for the C1 witness. -/
def scenarioRequest : TaskRequest :=
  ⟨"sec", "student@example.com", "My Task", 1, "nonce1",
   "Publish a markdown converter", "http://cb", none⟩

/-! ## Projection lemmas -/

@[simp]
theorem writesOf_nil : writesOf [] = [] := rfl

@[simp]
theorem writesOf_append (a b : List ApiCall) :
    writesOf (a ++ b) = writesOf a ++ writesOf b :=
  List.filterMap_append a b _

@[simp]
theorem postsOf_nil : postsOf [] = [] := rfl

@[simp]
theorem postsOf_append (a b : List ApiCall) :
    postsOf (a ++ b) = postsOf a ++ postsOf b :=
  List.filterMap_append a b _

@[simp]
theorem writesOf_writeFile (w : World) (owner repo path content message : String)
    (b : Bool) : writesOf (writeFile w owner repo path content message b) = [path] := rfl

@[simp]
theorem postsOf_writeFile (w : World) (owner repo path content message : String)
    (b : Bool) : postsOf (writeFile w owner repo path content message b) = [] := rfl

@[simp]
theorem writesOf_ensureRepo (w : World) (o n : String) :
    writesOf (ensureRepo w o n) = [] := by
  unfold ensureRepo
  split
  · rfl
  · split <;> rfl

@[simp]
theorem postsOf_ensureRepo (w : World) (o n : String) :
    postsOf (ensureRepo w o n) = [] := by
  unfold ensureRepo
  split
  · rfl
  · split <;> rfl

@[simp]
theorem writesOf_enablePages (w : World) (o n b : String) :
    writesOf (enablePages w o n b).1 = [] := by
  unfold enablePages
  split <;> rfl

@[simp]
theorem postsOf_enablePages (w : World) (o n b : String) :
    postsOf (enablePages w o n b).1 = [] := by
  unfold enablePages
  split <;> rfl

@[simp]
theorem fetchesOf_nil : fetchesOf [] = [] := rfl

@[simp]
theorem fetchesOf_append (a b : List ApiCall) :
    fetchesOf (a ++ b) = fetchesOf a ++ fetchesOf b :=
  List.filterMap_append a b _

@[simp]
theorem fetchesOf_endpoint_writeFile (owner repo path content message : String)
    (b : Bool) :
    fetchesOf (Endpoint.writeFile owner repo path content message b) = [] := rfl

@[simp]
theorem postsOf_endpoint_writeFile (owner repo path content message : String)
    (b : Bool) :
    postsOf (Endpoint.writeFile owner repo path content message b) = [] := rfl

@[simp]
theorem fetchesOf_endpoint_ensureRepo (w : World) (o n : String) :
    fetchesOf (Endpoint.ensureRepo w o n) = [] := by
  unfold Endpoint.ensureRepo
  split <;> rfl

@[simp]
theorem postsOf_endpoint_ensureRepo (w : World) (o n : String) :
    postsOf (Endpoint.ensureRepo w o n) = [] := by
  unfold Endpoint.ensureRepo
  split <;> rfl

@[simp]
theorem fetchesOf_enablePages (w : World) (o n b : String) :
    fetchesOf (enablePages w o n b).1 = [] := by
  unfold enablePages
  split <;> rfl

@[simp]
theorem fetchesOf_getRef (o rp b : String) :
    fetchesOf [ApiCall.getRef o rp b] = [] := rfl

@[simp]
theorem fetchesOf_endpoint_bundleWrites (o rp : String)
    (l : List (String × String)) :
    fetchesOf ((l.map fun pc =>
      Endpoint.writeFile o rp pc.1 pc.2 ("add " ++ pc.1) false).flatten) = [] := by
  induction l with
  | nil => rfl
  | cons a t ih =>
    simp only [List.map_cons, List.flatten_cons, fetchesOf_append,
      fetchesOf_endpoint_writeFile, List.nil_append]
    exact ih

@[simp]
theorem postsOf_endpoint_bundleWrites (o rp : String)
    (l : List (String × String)) :
    postsOf ((l.map fun pc =>
      Endpoint.writeFile o rp pc.1 pc.2 ("add " ++ pc.1) false).flatten) = [] := by
  induction l with
  | nil => rfl
  | cons a t ih =>
    simp only [List.map_cons, List.flatten_cons, postsOf_append,
      postsOf_endpoint_writeFile, List.nil_append]
    exact ih

@[simp]
theorem fetchesOf_endpoint_attachments (o rp : String)
    (att : Option (List Attachment)) :
    fetchesOf (Endpoint.attachmentCalls o rp att) = [] := by
  cases att with
  | none => rfl
  | some l =>
    rw [Endpoint.attachmentCalls]
    induction l with
    | nil => rfl
    | cons a t ih =>
      simp only [List.map_cons, List.flatten_cons, fetchesOf_append]
      rw [ih]
      split <;> rfl

@[simp]
theorem postsOf_endpoint_attachments (o rp : String)
    (att : Option (List Attachment)) :
    postsOf (Endpoint.attachmentCalls o rp att) = [] := by
  cases att with
  | none => rfl
  | some l =>
    rw [Endpoint.attachmentCalls]
    induction l with
    | nil => rfl
    | cons a t ih =>
      simp only [List.map_cons, List.flatten_cons, postsOf_append]
      rw [ih]
      split <;> rfl

@[simp]
theorem writesOf_getRef (o rp b : String) :
    writesOf [ApiCall.getRef o rp b] = [] := rfl

@[simp]
theorem postsOf_getRef (o rp b : String) :
    postsOf [ApiCall.getRef o rp b] = [] := rfl

@[simp]
theorem postsOf_postJson (u : String) (p : NotifyPayload) :
    postsOf [ApiCall.postJson u p] = [p] := rfl

theorem waitLoop_calls (ok : Nat → Bool) (url : String) (i : Nat) :
    ∀ c ∈ (waitLoop ok url i).1, c = ApiCall.fetchUrl url := by
  refine waitLoop.induct ok url
    (fun i => ∀ c ∈ (waitLoop ok url i).1, c = ApiCall.fetchUrl url) ?_ ?_ ?_ i
  · intro j hlt hok c hc
    rw [waitLoop] at hc
    simp only [dif_pos hlt, if_pos hok, List.mem_singleton] at hc
    exact hc
  · intro j hlt hok ih c hc
    rw [waitLoop] at hc
    simp only [dif_pos hlt, if_neg hok, List.mem_cons] at hc
    rcases hc with hc | hc
    · exact hc
    · exact ih c hc
  · intro j hlt c hc
    rw [waitLoop] at hc
    simp only [dif_neg hlt, List.not_mem_nil] at hc

@[simp]
theorem writesOf_waitLoop (ok : Nat → Bool) (url : String) (i : Nat) :
    writesOf (waitLoop ok url i).1 = [] := by
  rw [writesOf, List.filterMap_eq_nil_iff]
  intro c hc
  rw [waitLoop_calls ok url i c hc]

@[simp]
theorem postsOf_waitLoop (ok : Nat → Bool) (url : String) (i : Nat) :
    postsOf (waitLoop ok url i).1 = [] := by
  rw [postsOf, List.filterMap_eq_nil_iff]
  intro c hc
  rw [waitLoop_calls ok url i c hc]

theorem postLoop_calls (ok : Nat → Bool) (url : String) (p : NotifyPayload)
    (i d : Nat) : ∀ c ∈ (postLoop ok url p i d).1, c = ApiCall.postJson url p := by
  refine postLoop.induct ok url p
    (fun i d => ∀ c ∈ (postLoop ok url p i d).1, c = ApiCall.postJson url p) ?_ ?_ ?_ i d
  · intro j e hlt hok c hc
    rw [postLoop] at hc
    simp only [dif_pos hlt, if_pos hok, List.mem_singleton] at hc
    exact hc
  · intro j e hlt hok ih c hc
    rw [postLoop] at hc
    simp only [dif_pos hlt, if_neg hok, List.mem_cons] at hc
    rcases hc with hc | hc
    · exact hc
    · exact ih c hc
  · intro j e hlt c hc
    rw [postLoop] at hc
    simp only [dif_neg hlt, List.not_mem_nil] at hc

@[simp]
theorem writesOf_postLoop (ok : Nat → Bool) (url : String) (p : NotifyPayload)
    (i d : Nat) : writesOf (postLoop ok url p i d).1 = [] := by
  rw [writesOf, List.filterMap_eq_nil_iff]
  intro c hc
  rw [postLoop_calls ok url p i d c hc]

@[simp]
theorem writesOf_postWithRetry (ok : Nat → Bool) (url : String)
    (p : NotifyPayload) : writesOf (postWithRetry ok url p).1 = [] := by
  rw [postWithRetry]
  exact writesOf_postLoop ok url p 0 1000

@[simp]
theorem writesOf_waitForUrl (ok : Nat → Bool) (url : String) :
    writesOf (waitForUrl ok url).1 = [] := by
  rw [waitForUrl]
  exact writesOf_waitLoop ok url 0

@[simp]
theorem postsOf_waitForUrl (ok : Nat → Bool) (url : String) :
    postsOf (waitForUrl ok url).1 = [] := by
  rw [waitForUrl]
  exact postsOf_waitLoop ok url 0

@[simp]
theorem fetchesOf_postWithRetry (ok : Nat → Bool) (url : String)
    (p : NotifyPayload) : fetchesOf (postWithRetry ok url p).1 = [] := by
  rw [postWithRetry, fetchesOf, List.filterMap_eq_nil_iff]
  intro c hc
  rw [postLoop_calls ok url p 0 1000 c hc]

theorem postLoop_first_ok (ok : Nat → Bool) (url : String) (p : NotifyPayload)
    (i d : Nat) (hlt : i < 5) (hok : ok i = true) :
    postLoop ok url p i d = ([ApiCall.postJson url p], [], true) := by
  rw [postLoop]
  simp [hlt, hok]

/-! ## Claim C5 -/

/-- Claim C5: the secret check fails closed — a request whose secret field is
missing/falsy (modelled as the empty string) or not exactly equal to the
configured secret gets a 401 response and an empty outbound-call trace
(orchestration never starts); only an exact match reaches `processRequest`. -/
theorem secret_gate_fails_closed (env : Env) (w : World) (r : TaskRequest)
    (h : r.secret = "" ∨ env.studentSecret ≠ some r.secret) :
    handler env w "POST" r = (401, []) := by
  have hgate : secretOk env r.secret = false := by
    rcases h with h | h
    · simp [secretOk, h]
    · simp [secretOk]
      intro _
      exact fun heq => absurd heq h
  simp [handler, hgate]

/-- Witness for C5 at a concrete mismatched secret. -/
theorem secret_gate_fails_closed_witness :
    handler ⟨some "right", "owner1", 2025⟩
      ⟨true, "owner1", fun _ => none, true, "sha0", fun _ => true, fun _ => true⟩
      "POST" ⟨"wrong", "e", "t", 1, "n", "b", "u", none⟩ = (401, []) :=
  secret_gate_fails_closed _ _ _ (Or.inr (by decide))

/-! ## Claim C10 -/

/-- Claim C10: when the configured secret environment variable is unset,
every POST request is rejected with 401 and no orchestration runs, whatever
the supplied secret value is — a string never strictly equals `undefined`. -/
theorem unset_secret_rejects_all (env : Env) (w : World) (r : TaskRequest)
    (h : env.studentSecret = none) :
    handler env w "POST" r = (401, []) := by
  have hgate : secretOk env r.secret = false := by simp [secretOk, h]
  simp [handler, hgate]

/-- Witness for C10: unset secret, arbitrary concrete request secret. -/
theorem unset_secret_rejects_all_witness :
    handler ⟨none, "owner1", 2025⟩
      ⟨true, "owner1", fun _ => none, true, "sha0", fun _ => true, fun _ => true⟩
      "POST" ⟨"anything", "e", "t", 1, "n", "b", "u", none⟩ = (401, []) :=
  unset_secret_rejects_all _ _ _ rfl

/-! ## Claim C2 -/

/-- Claim C2 counterexample: the `src/api/endpoint.js` variant of the
write-file operation issues a single PUT that performs no prior contents
fetch and never carries a revision marker — here, concretely, a write of
`LICENSE`, whose trace is one `putContents` with `sha = none` and contains
no `getContents` call at all, whatever the repository already holds.  This
falsifies the claim that every write of an existing path first fetches the
blob revision and includes it in the PUT. -/
theorem endpoint_write_no_revision :
    Endpoint.writeFile "owner1" "repo1" "LICENSE" "hello" "add LICENSE" false =
      [ApiCall.putContents "owner1" "repo1" "LICENSE" "add LICENSE"
        (base64OfString "hello") none] := rfl

/-- Claim C2 (amended): in the `part_000` handler, `writeFile` first issues
the contents fetch and the PUT carries the fetched revision marker when the
path exists (an update, hence no duplicate-create conflict, also when the
content is identical), and carries no marker when the fetch fails (a
create); the `endpoint.js` variant instead always PUTs without a marker. -/
theorem writeFile_revision_semantics (w : World)
    (owner repo path content message : String) (isBase64 : Bool) :
    (∀ s, w.fileSha path = some s → s ≠ "" →
      writeFile w owner repo path content message isBase64 =
        [ApiCall.getContents owner repo path,
         ApiCall.putContents owner repo path message
           (if isBase64 then content else base64OfString content) (some s)]) ∧
    (w.fileSha path = none →
      writeFile w owner repo path content message isBase64 =
        [ApiCall.getContents owner repo path,
         ApiCall.putContents owner repo path message
           (if isBase64 then content else base64OfString content) none]) := by
  constructor
  · intro sh hs hne
    simp [writeFile, shaIfTruthy, hs, hne]
  · intro hs
    simp [writeFile, shaIfTruthy, hs]

/-- Witness for C2 at the concrete world: the existing path carries the
prior marker, an absent path carries none. -/
theorem writeFile_revision_semantics_witness :
    (writeFile exampleWorld "owner1" "repo1" "LICENSE" "hello" "msg" false =
      [ApiCall.getContents "owner1" "repo1" "LICENSE",
       ApiCall.putContents "owner1" "repo1" "LICENSE" "msg"
         (base64OfString "hello") (some "abc123")]) ∧
    (writeFile exampleWorld "owner1" "repo1" "script.js" "hello" "msg" false =
      [ApiCall.getContents "owner1" "repo1" "script.js",
       ApiCall.putContents "owner1" "repo1" "script.js" "msg"
         (base64OfString "hello") none]) :=
  ⟨(writeFile_revision_semantics exampleWorld "owner1" "repo1" "LICENSE" "hello"
      "msg" false).1 "abc123" rfl (by decide),
   (writeFile_revision_semantics exampleWorld "owner1" "repo1" "script.js" "hello"
      "msg" false).2 rfl⟩

/-! ## Claim C3 -/

/-- Claim C3 counterexample: on the task `"a_-_b"` the code yields
`"a---b"` — the hyphen is inside the kept character class `[a-z0-9-]`, so
runs of non-alphanumeric characters that include hyphens are NOT collapsed
to a single hyphen, and the result even contains consecutive hyphens; the
procedure described by the claim (collapse every non-alphanumeric run)
would yield `"a-b"`. -/
theorem slug_counterexample :
    repoNameFromTask "a_-_b" = "a---b" ∧
    slugSpecStyle "a_-_b" = "a-b" ∧
    repoNameFromTask "a_-_b" ≠ slugSpecStyle "a_-_b" ∧
    containsStr (repoNameFromTask "a_-_b") "--" = true := by decide

theorem collapseNonSlugGo_chars (b : Bool) (l : List Char) :
    ∀ c ∈ collapseNonSlugGo b l, isSlugChar c = true := by
  induction l generalizing b with
  | nil => intro c hc; simp [collapseNonSlugGo] at hc
  | cons a t ih =>
    intro c hc
    rw [collapseNonSlugGo] at hc
    by_cases ha : isSlugChar a = true
    · rw [if_pos ha] at hc
      rcases List.mem_cons.mp hc with h | h
      · exact h ▸ ha
      · exact ih false c h
    · rw [if_neg ha] at hc
      cases b with
      | true => exact ih true c (by simpa using hc)
      | false =>
        rcases List.mem_cons.mp (by simpa using hc) with h | h
        · subst h; decide
        · exact ih true c h

theorem collapseNonSlug_chars (l : List Char) :
    ∀ c ∈ collapseNonSlug l, isSlugChar c = true :=
  collapseNonSlugGo_chars false l

theorem collapseNonSlugGo_head (l : List Char) (hl : '-' ∉ l) :
    ∀ y ∈ (collapseNonSlugGo true l).head?, y ≠ '-' := by
  induction l with
  | nil => intro y hy; simp [collapseNonSlugGo] at hy
  | cons a t ih =>
    intro y hy
    rw [collapseNonSlugGo] at hy
    by_cases ha : isSlugChar a = true
    · rw [if_pos ha] at hy
      simp only [List.head?_cons, Option.mem_def, Option.some.injEq] at hy
      subst hy
      exact fun h => hl (h ▸ List.mem_cons_self a t)
    · rw [if_neg ha] at hy
      exact ih (fun h => hl (List.mem_cons_of_mem a h)) y (by simpa using hy)

theorem collapseNonSlugGo_chain (l : List Char) (hl : '-' ∉ l) (b : Bool) :
    List.Chain' (fun a c => a ≠ '-' ∨ c ≠ '-') (collapseNonSlugGo b l) := by
  induction l generalizing b with
  | nil => rw [collapseNonSlugGo]; exact List.chain'_nil
  | cons a t ih =>
    have hat : '-' ∉ t := fun h => hl (List.mem_cons_of_mem a h)
    rw [collapseNonSlugGo]
    by_cases ha : isSlugChar a = true
    · rw [if_pos ha]
      rw [List.chain'_cons']
      exact ⟨fun y _ => Or.inl fun h => hl (h ▸ List.mem_cons_self a t),
             ih hat false⟩
    · rw [if_neg ha]
      cases b with
      | true => simpa using ih hat true
      | false =>
        simp only [Bool.false_eq_true, if_false]
        rw [List.chain'_cons']
        exact ⟨fun y hy => Or.inr (collapseNonSlugGo_head t hat y hy), ih hat true⟩

theorem collapseNonSlug_chain (l : List Char) (hl : '-' ∉ l) :
    List.Chain' (fun a b => a ≠ '-' ∨ b ≠ '-') (collapseNonSlug l) :=
  collapseNonSlugGo_chain l hl false

/-- Claim C3 (amended): the derived repository name is obtained by
lowercasing and collapsing every run of characters OUTSIDE `[a-z0-9-]` to a
single hyphen (hyphens already present are kept verbatim); consequently the
result contains only characters in `[a-z0-9-]` (in particular it is
lowercase), and when the lowercased task contains no hyphen of its own, no
two adjacent hyphens occur in the result.  (Determinism is immediate:
`repoNameFromTask` is a function of the task string alone.) -/
theorem slug_charset_and_no_double_hyphen (task : String) :
    (∀ c ∈ (repoNameFromTask task).data, isSlugChar c = true) ∧
    ('-' ∉ (lowerStr task).data →
      List.Chain' (fun a b => a ≠ '-' ∨ b ≠ '-') (repoNameFromTask task).data) :=
  ⟨collapseNonSlug_chars _, fun h => collapseNonSlug_chain _ h⟩

/-- Witness for C3 (amended) on a concrete task. -/
theorem slug_charset_witness :
    (∀ c ∈ (repoNameFromTask "Markdown To HTML!!").data, isSlugChar c = true) ∧
    List.Chain' (fun a b => a ≠ '-' ∨ b ≠ '-')
      (repoNameFromTask "Markdown To HTML!!").data :=
  ⟨(slug_charset_and_no_double_hyphen "Markdown To HTML!!").1,
   (slug_charset_and_no_double_hyphen "Markdown To HTML!!").2 (by decide)⟩

/-! ## Claim C4 -/

/-- Claim C4 counterexample: two requests with identical brief
(`"Track sales totals"`) and identical round (1) but different task strings
produce different bundles — `salesTemplate` embeds the final dash-separated
component of the task into the generated page — so template selection is
not a function of the pair (brief, round) alone. -/
theorem template_selection_task_dependent :
    generateFromBrief
        ⟨"s", "e", "task-aaa", 1, "n", "Track sales totals", "u", none⟩ ≠
      generateFromBrief
        ⟨"s", "e", "task-bbb", 1, "n", "Track sales totals", "u", none⟩ := by
  decide

/-- Claim C4 (amended): template selection is a pure, deterministic function
of the triple (brief, round, task) — the task participates because the sales
and github-user bundles embed a task-derived seed; matching lowercases the
brief and tests the keywords in the fixed priority order captcha-solver,
markdown, sales, github user with first-match-wins (so a brief containing
both "markdown" and "sales" resolves to the markdown bundle), and it never
fails: every brief that matches no keyword still produces the generic
bundle. -/
theorem template_selection_priority (r : TaskRequest) :
    (∀ r2 : TaskRequest, r.brief = r2.brief → r.round = r2.round →
      r.task = r2.task → generateFromBrief r = generateFromBrief r2) ∧
    (containsStr (lowerStr r.brief) "captcha-solver" = true →
      generateFromBrief r = captchaSolverTemplate) ∧
    (containsStr (lowerStr r.brief) "captcha-solver" = false →
      containsStr (lowerStr r.brief) "markdown" = true →
      generateFromBrief r = markdownTemplate r.round) ∧
    (containsStr (lowerStr r.brief) "captcha-solver" = false →
      containsStr (lowerStr r.brief) "markdown" = false →
      containsStr (lowerStr r.brief) "sales" = true →
      generateFromBrief r = salesTemplate r.round r.task) ∧
    (containsStr (lowerStr r.brief) "captcha-solver" = false →
      containsStr (lowerStr r.brief) "markdown" = false →
      containsStr (lowerStr r.brief) "sales" = false →
      containsStr (lowerStr r.brief) "github user" = true →
      generateFromBrief r = githubUserTemplate r.round r.task) ∧
    (containsStr (lowerStr r.brief) "captcha-solver" = false →
      containsStr (lowerStr r.brief) "markdown" = false →
      containsStr (lowerStr r.brief) "sales" = false →
      containsStr (lowerStr r.brief) "github user" = false →
      generateFromBrief r = basicTemplate r.brief) := by
  refine ⟨?_, ?_, ?_, ?_, ?_, ?_⟩
  · intro r2 hb hr ht
    simp only [generateFromBrief, hb, hr, ht]
  · intro h1
    simp only [generateFromBrief, h1, if_true]
  · intro h1 h2
    simp only [generateFromBrief, h1, h2, Bool.false_eq_true, if_false, if_true]
  · intro h1 h2 h3
    simp only [generateFromBrief, h1, h2, h3, Bool.false_eq_true, if_false, if_true]
  · intro h1 h2 h3 h4
    simp only [generateFromBrief, h1, h2, h3, h4, Bool.false_eq_true, if_false, if_true]
  · intro h1 h2 h3 h4
    simp only [generateFromBrief, h1, h2, h3, h4, Bool.false_eq_true, if_false]

/-- Witness for C4: a brief containing both "markdown" and "sales" resolves
to the markdown bundle. -/
theorem template_selection_priority_witness :
    generateFromBrief
        ⟨"s", "e", "task-aaa", 1, "n", "Markdown of sales data", "u", none⟩ =
      markdownTemplate 1 :=
  (template_selection_priority
      ⟨"s", "e", "task-aaa", 1, "n", "Markdown of sales data", "u", none⟩).2.2.1
    (by decide) (by decide)

/-! ## Claim C9 -/

/-- Claim C9: a brief containing none of the recognized keywords selects the
generic bundle, whose file mapping has exactly one entry, `index.html`,
embedding the brief text verbatim (the original brief, not its lowercased
form, is spliced between the two fixed halves of the page). -/
theorem generic_bundle_single_file (r : TaskRequest)
    (h1 : containsStr (lowerStr r.brief) "captcha-solver" = false)
    (h2 : containsStr (lowerStr r.brief) "markdown" = false)
    (h3 : containsStr (lowerStr r.brief) "sales" = false)
    (h4 : containsStr (lowerStr r.brief) "github user" = false) :
    generateFromBrief r = basicTemplate r.brief ∧
    (generateFromBrief r).files =
      [("index.html",
        "<!doctype html><html><body><h1>Task Brief</h1><pre>" ++ r.brief ++
          "</pre></body></html>")] := by
  have hb : generateFromBrief r = basicTemplate r.brief := by
    simp only [generateFromBrief, h1, h2, h3, h4, Bool.false_eq_true, if_false]
  exact ⟨hb, by rw [hb]; rfl⟩

/-- Witness for C9 at a concrete unmatched brief. -/
theorem generic_bundle_single_file_witness :
    generateFromBrief ⟨"s", "e", "t", 1, "n", "Build Something Odd", "u", none⟩ =
        basicTemplate "Build Something Odd" ∧
      (generateFromBrief
          ⟨"s", "e", "t", 1, "n", "Build Something Odd", "u", none⟩).files =
        [("index.html",
          "<!doctype html><html><body><h1>Task Brief</h1><pre>" ++
            "Build Something Odd" ++ "</pre></body></html>")] :=
  generic_bundle_single_file ⟨"s", "e", "t", 1, "n", "Build Something Odd", "u", none⟩
    (by decide) (by decide) (by decide) (by decide)

/-! ## Claim C6 -/

theorem postLoop_len (ok : Nat → Bool) (url : String) (p : NotifyPayload)
    (i d : Nat) : (postLoop ok url p i d).1.length ≤ 5 - i := by
  refine postLoop.induct ok url p
    (fun i d => (postLoop ok url p i d).1.length ≤ 5 - i) ?_ ?_ ?_ i d
  · intro j e hlt hok
    rw [postLoop]
    simp only [dif_pos hlt, if_pos hok, List.length_singleton]
    omega
  · intro j e hlt hok ih
    rw [postLoop]
    simp only [dif_pos hlt, if_neg hok, List.length_cons]
    omega
  · intro j e hlt
    rw [postLoop]
    simp [hlt]

theorem postLoop_succeeds (ok : Nat → Bool) (url : String) (p : NotifyPayload) :
    ∀ (n i d : Nat), i + n < 5 → (∀ j, j < n → ok (i + j) = false) →
      ok (i + n) = true →
      postLoop ok url p i d =
        (List.replicate (n + 1) (ApiCall.postJson url p),
         (List.range n).map (fun k => d * 2 ^ k), true) := by
  intro n
  induction n with
  | zero =>
    intro i d hlt _ hok
    rw [postLoop]
    simp only [Nat.add_zero] at hlt hok
    simp [dif_pos hlt, hok]
  | succ n ih =>
    intro i d hlt hfail hok
    have h0 : ok i = false := by simpa using hfail 0 (Nat.succ_pos n)
    have hi : i < 5 := by omega
    rw [postLoop]
    simp only [dif_pos hi, h0, Bool.false_eq_true, if_false]
    have hr := ih (i + 1) (d * 2) (by omega)
      (fun j hj => by
        rw [show i + 1 + j = i + (j + 1) from by omega]
        exact hfail (j + 1) (by omega))
      (by rw [show i + 1 + n = i + (n + 1) from by omega]; exact hok)
    rw [hr]
    refine Prod.ext ?_ (Prod.ext ?_ rfl)
    · simp [List.replicate_succ]
    · simp only [List.range_succ_eq_map, List.map_cons, List.map_map, pow_zero,
        Nat.mul_one]
      congr 1
      apply List.map_congr_left
      intro k _
      simp [Function.comp, pow_succ]
      ring

theorem postLoop_exhausts (ok : Nat → Bool) (url : String) (p : NotifyPayload) :
    ∀ (k i d : Nat), i + k = 5 → (∀ j, j < 5 → ok j = false) →
      postLoop ok url p i d =
        (List.replicate k (ApiCall.postJson url p),
         (List.range k).map (fun m => d * 2 ^ m), false) := by
  intro k
  induction k with
  | zero =>
    intro i d hik _
    rw [postLoop]
    simp [show ¬i < 5 by omega]
  | succ k ih =>
    intro i d hik hfail
    have hi : i < 5 := by omega
    have h0 : ok i = false := hfail i hi
    rw [postLoop]
    simp only [dif_pos hi, h0, Bool.false_eq_true, if_false]
    rw [ih (i + 1) (d * 2) (by omega) hfail]
    refine Prod.ext ?_ (Prod.ext ?_ rfl)
    · simp [List.replicate_succ]
    · simp only [List.range_succ_eq_map, List.map_cons, List.map_map, pow_zero,
        Nat.mul_one]
      congr 1
      apply List.map_congr_left
      intro m _
      simp [Function.comp, pow_succ]
      ring

/-- Claim C6: the notifier makes at most 5 POST attempts; any non-ok status
or transport exception (`ok i = false`) is retryable; when the callback
fails the first `n` times and then succeeds (`n < 5`) exactly `n + 1`
attempts are made, the delays slept between attempts are
`1000, 2000, …, 1000·2^(n-1)` (strictly increasing doubling, as the final
conjunct records), and no attempt follows the success; when all 5 attempts
fail it stops after sleeping `[1000, 2000, 4000, 8000, 16000]` and returns
normally (gives up silently, `delivered = false`). -/
theorem notifier_retry_behavior (ok : Nat → Bool) (url : String)
    (p : NotifyPayload) :
    (postWithRetry ok url p).1.length ≤ 5 ∧
    (∀ n, n < 5 → (∀ j, j < n → ok j = false) → ok n = true →
      postWithRetry ok url p =
        (List.replicate (n + 1) (ApiCall.postJson url p),
         (List.range n).map (fun k => 1000 * 2 ^ k), true)) ∧
    ((∀ j, j < 5 → ok j = false) →
      postWithRetry ok url p =
        (List.replicate 5 (ApiCall.postJson url p),
         [1000, 2000, 4000, 8000, 16000], false)) ∧
    (∀ n, List.Chain' (· < ·) ((List.range n).map (fun k => 1000 * 2 ^ k))) := by
  refine ⟨postLoop_len ok url p 0 1000, ?_, ?_, ?_⟩
  · intro n hn hfail hok
    exact postLoop_succeeds ok url p n 0 1000 (by omega)
      (fun j hj => by simpa using hfail j hj) (by simpa using hok)
  · intro hfail
    have h := postLoop_exhausts ok url p 5 0 1000 rfl hfail
    have hm : (List.range 5).map (fun m => 1000 * 2 ^ m) =
        [1000, 2000, 4000, 8000, 16000] := by decide
    rw [postWithRetry, h, hm]
  · intro n
    refine List.Pairwise.chain' ?_
    refine List.Pairwise.map _ ?_ (List.pairwise_lt_range n)
    intro a b hab
    have h2 : (2 : Nat) ^ a < 2 ^ b := Nat.pow_lt_pow_right (by norm_num) hab
    omega

/-- Witness for C6: a callback failing twice then succeeding gets exactly 3
attempts with delays 1000, 2000 and no attempt after the success. -/
theorem notifier_retry_behavior_witness :
    postWithRetry (fun i => i == 2) "http://cb" examplePayload =
      (List.replicate 3 (ApiCall.postJson "http://cb" examplePayload),
       (List.range 2).map (fun k => 1000 * 2 ^ k), true) :=
  (notifier_retry_behavior (fun i => i == 2) "http://cb" examplePayload).2.1 2
    (by decide) (by decide) (by decide)

/-! ## Claim C7 -/

theorem waitLoop_succeeds (ok : Nat → Bool) (url : String) :
    ∀ (n i : Nat), i + n < 60 → (∀ j, j < n → ok (i + j) = false) →
      ok (i + n) = true →
      waitLoop ok url i = (List.replicate (n + 1) (ApiCall.fetchUrl url), true) := by
  intro n
  induction n with
  | zero =>
    intro i hlt _ hok
    rw [waitLoop]
    simp only [Nat.add_zero] at hlt hok
    simp [show 2000 * i < 120000 by omega, hok]
  | succ n ih =>
    intro i hlt hfail hok
    have h0 : ok i = false := by simpa using hfail 0 (Nat.succ_pos n)
    rw [waitLoop]
    simp only [dif_pos (show 2000 * i < 120000 by omega), h0, Bool.false_eq_true,
      if_false]
    rw [ih (i + 1) (by omega)
      (fun j hj => by
        rw [show i + 1 + j = i + (j + 1) from by omega]
        exact hfail (j + 1) (by omega))
      (by rw [show i + 1 + n = i + (n + 1) from by omega]; exact hok)]
    simp [List.replicate_succ]

theorem waitLoop_timeout (ok : Nat → Bool) (url : String) :
    ∀ (k i : Nat), i + k = 60 → (∀ j, j < 60 → ok j = false) →
      waitLoop ok url i = (List.replicate k (ApiCall.fetchUrl url), false) := by
  intro k
  induction k with
  | zero =>
    intro i hik _
    rw [waitLoop]
    simp [show ¬2000 * i < 120000 by omega]
  | succ k ih =>
    intro i hik hfail
    have h0 : ok i = false := hfail i (by omega)
    rw [waitLoop]
    simp only [dif_pos (show 2000 * i < 120000 by omega), h0, Bool.false_eq_true,
      if_false]
    rw [ih (i + 1) (by omega) hfail]
    simp [List.replicate_succ]

theorem endpoint_trace_no_fetch (env : Env) (w : World) (r : TaskRequest) :
    fetchesOf (Endpoint.processRequest env w r) = [] := by
  simp only [Endpoint.processRequest, fetchesOf_append,
    fetchesOf_endpoint_ensureRepo, fetchesOf_endpoint_writeFile,
    fetchesOf_endpoint_bundleWrites, fetchesOf_endpoint_attachments,
    fetchesOf_enablePages, getLatestCommitSha, fetchesOf_getRef,
    fetchesOf_postWithRetry, List.append_nil, List.nil_append]

theorem endpoint_trace_posts (env : Env) (w : World) (r : TaskRequest)
    (hp : w.postOk 0 = true) :
    postsOf (Endpoint.processRequest env w r) = [notifyPayload env w r] := by
  have hpost : (postWithRetry w.postOk r.evaluation_url
      (notifyPayload env w r)).1 = [ApiCall.postJson r.evaluation_url
        (notifyPayload env w r)] := by
    rw [postWithRetry, postLoop_first_ok w.postOk _ _ 0 1000 (by omega) hp]
  simp only [Endpoint.processRequest, postsOf_append, postsOf_endpoint_ensureRepo,
    postsOf_endpoint_writeFile, postsOf_endpoint_bundleWrites,
    postsOf_endpoint_attachments, postsOf_enablePages, getLatestCommitSha,
    postsOf_getRef, hpost, postsOf_postJson, List.append_nil, List.nil_append]

/-- Claim C7 counterexample: the `src/api/endpoint.js` orchestrator performs
no hosting-availability poll at all — at this concrete valid request its
trace contains zero hosting GETs yet still delivers the notification,
going straight from enabling pages to resolving the commit.  This falsifies
"the orchestrator polls the hosting URL with plain HTTP GET every 2 seconds
until a successful response or until 120 seconds have elapsed" for that
cited orchestrator variant. -/
theorem endpoint_no_hosting_poll :
    fetchesOf (Endpoint.processRequest scenarioEnv scenarioWorld
      scenarioRequest) = [] ∧
    postsOf (Endpoint.processRequest scenarioEnv scenarioWorld
      scenarioRequest) =
      [notifyPayload scenarioEnv scenarioWorld scenarioRequest] :=
  ⟨endpoint_trace_no_fetch scenarioEnv scenarioWorld scenarioRequest,
   endpoint_trace_posts scenarioEnv scenarioWorld scenarioRequest rfl⟩

/-- Claim C7 (amended): in the `part_000` orchestrator, after enabling
hosting the workflow polls the hosting URL with plain GETs; iteration `i`
runs at elapsed time `2000·i` ms while that is below the 120000 ms timeout,
so a first success at poll `n < 60` stops after `n + 1` polls (2-second
spacing) and 60 failures exhaust the 120-second window returning `false`
rather than raising; the workflow shape is unconditional — whatever the poll
outcomes, the trace continues with the branch-ref resolution and the
notification attempts.  The `src/api/endpoint.js` orchestrator variant,
however, performs no poll at all: its trace contains no hosting GET and
goes directly from enabling hosting to the branch-ref resolution and the
notification attempts. -/
theorem hosting_poll_best_effort (ok : Nat → Bool) (url : String) :
    (∀ n, n < 60 → (∀ j, j < n → ok j = false) → ok n = true →
      waitForUrl ok url = (List.replicate (n + 1) (ApiCall.fetchUrl url), true)) ∧
    ((∀ j, j < 60 → ok j = false) →
      waitForUrl ok url = (List.replicate 60 (ApiCall.fetchUrl url), false)) ∧
    (∀ (env : Env) (w : World) (r : TaskRequest), ∃ pre,
      processRequest env w r =
        pre ++ (waitForUrl w.urlOk (pagesUrlOf env.ghOwner (repoNameFromTask r.task))).1
          ++ [ApiCall.getRef env.ghOwner (repoNameFromTask r.task) "main"]
          ++ (postWithRetry w.postOk r.evaluation_url (notifyPayload env w r)).1) ∧
    (∀ (env : Env) (w : World) (r : TaskRequest),
      fetchesOf (Endpoint.processRequest env w r) = [] ∧
      ∃ pre, Endpoint.processRequest env w r =
        pre ++ (enablePages w env.ghOwner (repoNameFromTask r.task) "main").1
          ++ [ApiCall.getRef env.ghOwner (repoNameFromTask r.task) "main"]
          ++ (postWithRetry w.postOk r.evaluation_url (notifyPayload env w r)).1) := by
  refine ⟨?_, ?_, ?_, ?_⟩
  · intro n hn hfail hok
    exact waitLoop_succeeds ok url n 0 (by omega)
      (fun j hj => by simpa using hfail j hj) (by simpa using hok)
  · intro hfail
    exact waitLoop_timeout ok url 60 0 rfl hfail
  · intro env w r
    exact ⟨_, rfl⟩
  · intro env w r
    exact ⟨endpoint_trace_no_fetch env w r, _, rfl⟩

/-- Witness for C7: a URL that first responds on poll 3 is polled exactly 4
times and reported available. -/
theorem hosting_poll_best_effort_witness :
    waitForUrl (fun i => i == 3) "https://owner1.github.io/r/" =
      (List.replicate 4 (ApiCall.fetchUrl "https://owner1.github.io/r/"), true) :=
  (hosting_poll_best_effort (fun i => i == 3) "https://owner1.github.io/r/").1 3
    (by decide) (by decide) (by decide)

/-! ## Claim C1 -/

/-- Claim C1: for a POST with a valid secret, brief
`"Publish a markdown converter"`, round 1 (and no attachments array),
the handler acknowledges with 200 and the orchestration first provisions
the repository, then issues exactly 4 file writes in the order LICENSE,
README.md, index.html, script.js, enables hosting, and — when the callback
succeeds immediately — sends exactly one notification whose payload carries
the resolved head commit identifier and the hosting URL
`https://<owner>.github.io/<repo>/`. -/
theorem markdown_scenario (env : Env) (w : World) (r : TaskRequest)
    (hb : r.brief = "Publish a markdown converter") (hr : r.round = 1)
    (ha : r.attachments = none) (hs : secretOk env r.secret = true)
    (hp : w.postOk 0 = true) :
    (handler env w "POST" r).1 = 200 ∧
    (∃ rest, (handler env w "POST" r).2 =
      ensureRepo w env.ghOwner (repoNameFromTask r.task) ++ rest) ∧
    writesOf (handler env w "POST" r).2 =
      ["LICENSE", "README.md", "index.html", "script.js"] ∧
    ApiCall.createPages env.ghOwner (repoNameFromTask r.task) "main" ∈
      (handler env w "POST" r).2 ∧
    postsOf (handler env w "POST" r).2 =
      [{ email := r.email, task := r.task, round := r.round, nonce := r.nonce,
         repo_url := "https://github.com/" ++ env.ghOwner ++ "/" ++
           repoNameFromTask r.task,
         commit_sha := w.headSha,
         pages_url := "https://" ++ env.ghOwner ++ ".github.io/" ++
           repoNameFromTask r.task ++ "/" }] := by
  have hH : handler env w "POST" r = (200, processRequest env w r) := by
    simp [handler, hs]
  have h1 : containsStr (lowerStr "Publish a markdown converter")
      "captcha-solver" = false := by decide
  have h2 : containsStr (lowerStr "Publish a markdown converter")
      "markdown" = true := by decide
  have h3 : markdownTemplate 1 =
      ⟨markdownReadme1,
       [("index.html", markdownIndexHtml1), ("script.js", markdownScriptJs1)]⟩ := by
    rw [markdownTemplate, if_pos rfl]
  have hg : generateFromBrief r =
      (⟨markdownReadme1,
        [("index.html", markdownIndexHtml1), ("script.js", markdownScriptJs1)]⟩ :
        Bundle) := by
    simp only [generateFromBrief, hb, hr, h1, h2, Bool.false_eq_true, if_false,
      if_true, h3]
  have hpost : (postWithRetry w.postOk r.evaluation_url
      (notifyPayload env w r)).1 = [ApiCall.postJson r.evaluation_url
        (notifyPayload env w r)] := by
    rw [postWithRetry, postLoop_first_ok w.postOk _ _ 0 1000 (by omega) hp]
  have hpre : ∃ rest, processRequest env w r =
      ensureRepo w env.ghOwner (repoNameFromTask r.task) ++ rest := by
    apply Exists.intro
    simp only [processRequest, List.append_assoc]
    rfl
  refine ⟨by rw [hH], by rw [hH]; exact hpre, ?_, ?_, ?_⟩
  · rw [hH]
    simp only [processRequest, hg, ha, attachmentCalls, getLatestCommitSha,
      writesOf_append, writesOf_ensureRepo, writesOf_writeFile,
      writesOf_enablePages, writesOf_waitForUrl, writesOf_postWithRetry,
      writesOf_getRef, writesOf_nil, List.map_cons, List.map_nil,
      List.flatten_cons, List.flatten_nil, List.append_nil, List.nil_append]
    rfl
  · rw [hH]
    have hmem : ApiCall.createPages env.ghOwner (repoNameFromTask r.task) "main" ∈
        (enablePages w env.ghOwner (repoNameFromTask r.task) "main").1 := by
      unfold enablePages
      split <;> simp
    simp only [processRequest, List.mem_append]
    exact Or.inl (Or.inl (Or.inl (Or.inr hmem)))
  · rw [hH]
    simp only [processRequest, hg, ha, attachmentCalls, getLatestCommitSha,
      postsOf_append, postsOf_ensureRepo, postsOf_writeFile, postsOf_enablePages,
      postsOf_waitForUrl, postsOf_getRef, postsOf_nil, List.map_cons,
      List.map_nil, List.flatten_cons, List.flatten_nil, List.append_nil,
      List.nil_append, hpost, postsOf_postJson]
    simp [notifyPayload, pagesUrlOf]

/-- Witness for C1 at concrete environment, world and request. -/
theorem markdown_scenario_witness :
    (handler scenarioEnv scenarioWorld "POST" scenarioRequest).1 = 200 ∧
    (∃ rest, (handler scenarioEnv scenarioWorld "POST" scenarioRequest).2 =
      ensureRepo scenarioWorld "owner1" (repoNameFromTask "My Task") ++ rest) ∧
    writesOf (handler scenarioEnv scenarioWorld "POST" scenarioRequest).2 =
      ["LICENSE", "README.md", "index.html", "script.js"] ∧
    ApiCall.createPages "owner1" (repoNameFromTask "My Task") "main" ∈
      (handler scenarioEnv scenarioWorld "POST" scenarioRequest).2 ∧
    postsOf (handler scenarioEnv scenarioWorld "POST" scenarioRequest).2 =
      [{ email := "student@example.com", task := "My Task", round := 1,
         nonce := "nonce1",
         repo_url := "https://github.com/" ++ "owner1" ++ "/" ++
           repoNameFromTask "My Task",
         commit_sha := "headsha1",
         pages_url := "https://" ++ "owner1" ++ ".github.io/" ++
           repoNameFromTask "My Task" ++ "/" }] :=
  markdown_scenario scenarioEnv scenarioWorld scenarioRequest rfl rfl rfl
    (by decide) rfl

/-! ## Claim C8 -/

theorem b64Char_ne_semi (n : Nat) : b64Char n ≠ ';' := by
  by_cases h : n < b64Alphabet.length
  · intro hc
    have hm : b64Alphabet[n] ∈ b64Alphabet := List.getElem_mem h
    rw [b64Char, List.getD_eq_getElem _ _ h] at hc
    rw [hc] at hm
    exact absurd hm (by decide)
  · rw [b64Char, List.getD_eq_default _ _ (Nat.le_of_not_lt h)]
    decide

theorem semi_notMem_base64 (bs : List Nat) : ';' ∉ base64Encode bs := by
  refine base64Encode.induct (fun bs => ';' ∉ base64Encode bs) ?_ ?_ ?_ ?_ bs
  · intro h
    rw [base64Encode] at h
    exact List.not_mem_nil _ h
  · intro b1 h
    rw [base64Encode] at h
    simp only [List.mem_cons, List.not_mem_nil, or_false] at h
    rcases h with h | h | h | h <;>
      first
        | exact b64Char_ne_semi _ h.symm
        | exact absurd h (by decide)
  · intro b1 b2 h
    rw [base64Encode] at h
    simp only [List.mem_cons, List.not_mem_nil, or_false] at h
    rcases h with h | h | h | h <;>
      first
        | exact b64Char_ne_semi _ h.symm
        | exact absurd h (by decide)
  · intro b1 b2 b3 rest ih h
    rw [base64Encode] at h
    simp only [List.mem_cons] at h
    rcases h with h | h | h | h | h
    · exact b64Char_ne_semi _ h.symm
    · exact b64Char_ne_semi _ h.symm
    · exact b64Char_ne_semi _ h.symm
    · exact b64Char_ne_semi _ h.symm
    · exact ih h

theorem getLast_filter_range (p : Nat → Bool) :
    ∀ (n x : Nat), x < n → p x = true → (∀ y, x < y → p y = false) →
      ((List.range n).filter p).getLast? = some x := by
  intro n
  induction n with
  | zero => intro x hx _ _; exact absurd hx (Nat.not_lt_zero x)
  | succ n ih =>
    intro x hx hpx hafter
    rw [List.range_succ, List.filter_append]
    by_cases hxn : x = n
    · subst hxn
      have h1 : List.filter p [x] = [x] := by simp [hpx]
      rw [h1, List.getLast?_concat]
    · have hpn : p n = false := hafter n (by omega)
      have h1 : List.filter p [n] = [] := by simp [hpn]
      rw [h1, List.append_nil]
      exact ih x (by omega) hpx hafter

/-- No occurrence of the marker can start inside a semicolon-free list. -/
theorem semi_head_not_prefix {l : List Char} (hl : ';' ∉ l) (k : Nat) :
    b64Marker.isPrefixOf (l.drop k) = false := by
  cases hd : l.drop k with
  | nil => rfl
  | cons x xs =>
    have hx : x ∈ l := by
      refine List.Sublist.mem ?_ (List.drop_sublist k l)
      rw [hd]
      exact List.mem_cons_self x xs
    have hxne : (';' == x) = false := by
      refine beq_eq_false_iff_ne.mpr fun h => hl ?_
      rw [← h] at hx
      exact hx
    show ((';' :: b64MarkerTail).isPrefixOf (x :: xs)) = false
    rw [List.isPrefixOf_cons₂, hxne, Bool.false_and]

/-- No occurrence of the marker starts strictly after the explicit one in
`a ++ (marker ++ b)` when `b` is semicolon-free. -/
theorem marker_not_after (a b : List Char) (hb : ';' ∉ b) (j : Nat)
    (hj : a.length < j) :
    b64Marker.isPrefixOf ((a ++ (b64Marker ++ b)).drop j) = false := by
  have hsemi : ';' ∉ (b64MarkerTail ++ b) := by
    intro h
    rcases List.mem_append.mp h with h | h
    · exact absurd h (by decide)
    · exact hb h
  obtain ⟨t, rfl⟩ : ∃ t, j = a.length + (t + 1) := ⟨j - a.length - 1, by omega⟩
  rw [List.drop_append]
  have h2 : (b64Marker ++ b).drop (t + 1) = (b64MarkerTail ++ b).drop t := rfl
  rw [h2]
  exact semi_head_not_prefix hsemi t

/-- In `a ++ (marker ++ b)` with `b` semicolon-free, the LAST occurrence of
the marker is the explicit one, at index `a.length`. -/
theorem lastOcc_append_marker (a b : List Char) (hb : ';' ∉ b) :
    lastOcc b64Marker (a ++ (b64Marker ++ b)) = some a.length := by
  rw [lastOcc]
  refine getLast_filter_range _ _ a.length ?_ ?_ ?_
  · simp only [List.length_append]
    omega
  · rw [List.drop_left]
    exact List.isPrefixOf_iff_prefix.mpr (List.prefix_append _ _)
  · intro y hy
    exact marker_not_after a b hb y hy

/-- Claim C8: the attachment decoder satisfies the round-trip law — for
every byte sequence `bs` and every mime string, base64-encoding `bs` into a
data URI `data:<mime>;base64,<payload>` and then decoding extracts exactly
that payload (the greedy `.*` binds to the LAST `;base64,`, and the base64
alphabet contains no semicolon, so the split is unambiguous) — and every
input string not of that shape decodes to the empty payload; the decoder is
a total function, so it never raises. -/
theorem data_uri_roundtrip :
    (∀ (bs : List Nat) (m : List Char),
      parseDataUri ("data:".data ++ m ++ b64Marker ++ base64Encode bs) =
        base64Encode bs) ∧
    (∀ u : List Char, (∀ m p, u ≠ "data:".data ++ m ++ b64Marker ++ p) →
      parseDataUri u = []) := by
  constructor
  · intro bs m
    have hsem : ';' ∉ base64Encode bs := semi_notMem_base64 bs
    have hu : "data:".data ++ m ++ b64Marker ++ base64Encode bs =
        ("data:".data ++ m) ++ (b64Marker ++ base64Encode bs) := by
      simp [List.append_assoc]
    rw [hu, parseDataUri]
    have hpre : ("data:".data).isPrefixOf
        (("data:".data ++ m) ++ (b64Marker ++ base64Encode bs)) = true := by
      refine List.isPrefixOf_iff_prefix.mpr ?_
      rw [List.append_assoc]
      exact List.prefix_append _ _
    rw [if_pos hpre, lastOcc_append_marker _ _ hsem]
    show (("data:".data ++ m) ++ (b64Marker ++ base64Encode bs)).drop
        (("data:".data ++ m).length + b64Marker.length) = base64Encode bs
    rw [List.drop_append]
    rfl
  · intro u hshape
    rw [parseDataUri]
    by_cases hpre : ("data:".data).isPrefixOf u
    · rw [if_pos hpre]
      cases hlast : lastOcc b64Marker u with
      | none => rfl
      | some i =>
        exfalso
        obtain ⟨rest, hrest⟩ : "data:".data <+: u :=
          List.isPrefixOf_iff_prefix.mp hpre
        have hmem : i ∈ (List.range (u.length + 1)).filter
            fun k => b64Marker.isPrefixOf (u.drop k) :=
          List.mem_of_mem_getLast? hlast
        have hocc : b64Marker.isPrefixOf (u.drop i) = true :=
          (List.mem_filter.mp hmem).2
        have hi5 : 5 ≤ i := by
          by_contra hlt
          rw [← hrest] at hocc
          interval_cases i <;> simp [List.isPrefixOf_cons₂, b64Marker] at hocc
        obtain ⟨tail, htail⟩ : b64Marker <+: u.drop i :=
          List.isPrefixOf_iff_prefix.mp hocc
        obtain ⟨t, rfl⟩ : ∃ t, i = 5 + t := ⟨i - 5, by omega⟩
        have hlen5 : ("data:".data).length = 5 := rfl
        have htake : u.take (5 + t) = "data:".data ++ rest.take t := by
          rw [← hrest, ← hlen5]
          exact List.take_append t
        refine hshape (rest.take t) tail ?_
        calc u = u.take (5 + t) ++ u.drop (5 + t) := (List.take_append_drop _ u).symm
          _ = ("data:".data ++ rest.take t) ++ (b64Marker ++ tail) := by
              rw [htake, htail]
          _ = "data:".data ++ rest.take t ++ b64Marker ++ tail := by
              simp [List.append_assoc]
    · rw [if_neg hpre]

/-- Witness for C8's malformed-input clause at a concrete non-matching
string (its length rules out the data-URI shape). -/
theorem data_uri_malformed_witness : parseDataUri "hello".data = [] :=
  data_uri_roundtrip.2 "hello".data fun m p h => by
    have hlen := congrArg List.length h
    simp [List.length_append, b64Marker] at hlen

end Tds
